import Mathlib

/-!
Verification development for the fragment-automated-buyer repository.

Shallow embedding of the listing-monitor / purchase-orchestration pipeline:
* `Listing`, `listingKey`, `processTick`, `runSession` embed the dedup loop of
  `app/services/monitor.py` (`NumbersMonitor._run`, lines 42-64).
* `NumbersMonitor` (state record) with `start` / `stop` embeds the lifecycle
  methods of `app/services/monitor.py` (lines 25-40); `SysState` with
  `start_monitor_endpoint` / `stop_monitor_endpoint` embeds the application
  level wiring of `app/main.py` (lines 359-364, 389-396).
* `get_balance_nano`, `transferTraced` embed `app/utils/ton.py` (`TON`).
* `pre_check_affordability` embeds `app/main.py` lines 162-249.
* `buy_number`, `direct_buy_call`, `monitor_purchase_step` embed the purchase
  path of `app/main.py` (lines 81-91, 303-311, 572-716).

External collaborators (HTTP clients, the lite client, the wallet) are
represented by explicit oracles recording the outcome of each call a run makes;
Python exceptions are modelled with `Option`/`Except` values.
-/

/-- One marketplace listing as produced by `list_sales` in
`app/clients/fragment.py`: a dict with keys `id`, `price_ton_int`, `status`.
`item.get(k)` yields `None` when absent, hence every field is an `Option`. -/
structure Listing where
  id : Option String
  price_ton_int : Option Int
  stat : Option String
deriving DecidableEq, Repr

/-- Python `str` of an optional string: `None` renders as "None". -/
def pyOptStr : Option String → String
  | none => "None"
  | some s => s

/-- Python `str` of an optional integer: `None` renders as "None". -/
def pyOptInt : Option Int → String
  | none => "None"
  | some n => toString n

/-- Dedup key from `app/services/monitor.py` line 49:
the f-string rendering of id, price and the listing state joined by `|`. -/
def listingKey (l : Listing) : String :=
  pyOptStr l.id ++ "|" ++ pyOptInt l.price_ton_int ++ "|" ++ pyOptStr l.stat

/-- One tick body of `NumbersMonitor._run` (monitor.py lines 48-53): walk the
fetched listings in order; a listing whose key is not in the seen set is added
to the set and reported. Returns the updated seen set and the reported
listings in callback order. -/
def processTick : List Listing → List String → List String × List Listing
  | [], seen => (seen, [])
  | l :: ls, seen =>
    if listingKey l ∈ seen then processTick ls seen
    else
      let r := processTick ls (listingKey l :: seen)
      (r.1, l :: r.2)

/-- A monitor session: the tick loop run over a sequence of fetched snapshots,
threading the seen set across ticks (monitor.py lines 43-64; the set lives in
`self._seen` and is never cleared by the loop). -/
def runSession : List (List Listing) → List String → List String × List Listing
  | [], seen => (seen, [])
  | t :: ts, seen =>
    let r := processTick t seen
    let r2 := runSession ts r.1
    (r2.1, r.2 ++ r2.2)

/-- Modelled from the spec: the declarative characterization of novelty — a
listing is reported exactly when its key does not occur among the keys of the
initial seen set or of the listings processed before it. Stated over the flat
processing order, with no tick structure and no threaded monitor state; to be
compared with `runSession`. -/
def specNewKeyFilter : List Listing → List String → List Listing
  | [], _ => []
  | l :: ls, seen =>
    if listingKey l ∈ seen then specNewKeyFilter ls seen
    else l :: specNewKeyFilter ls (listingKey l :: seen)

/-- `NumbersMonitor` instance state (monitor.py lines 11-23): the seen set
`self._seen`, whether `self._task` holds a live (not done) task, and the
cooperative `self._running` flag. -/
structure NumbersMonitor where
  seen : List String
  taskAlive : Bool
  running : Bool
deriving DecidableEq, Repr

/-- Constructor state (monitor.py lines 12-23): empty seen set, no task. -/
def NumbersMonitor.init : NumbersMonitor :=
  { seen := [], taskAlive := false, running := false }

/-- Result of `NumbersMonitor.start`: either a fresh tick-loop task was
launched, or the call found a live task and returned without doing anything
(it logs a warning and returns `None`; no exception is raised). -/
inductive StartRes where
  | started
  | alreadyRunningNoop
deriving DecidableEq, Repr

/-- `NumbersMonitor.start` (monitor.py lines 25-32): if `self._task` exists and
is not done, log and return; otherwise set `_running` and spawn the loop task.
The seen set is left untouched in both branches. -/
def NumbersMonitor.start (m : NumbersMonitor) : NumbersMonitor × StartRes :=
  if m.taskAlive then (m, .alreadyRunningNoop)
  else ({ m with running := true, taskAlive := true }, .started)

/-- `NumbersMonitor.stop` (monitor.py lines 34-40): clear `_running`, cancel
and await the task. The seen set is retained. -/
def NumbersMonitor.stop (m : NumbersMonitor) : NumbersMonitor :=
  { m with running := false, taskAlive := false }

/-- One loop iteration applied to a monitor value: run the tick body over the
instance's seen set and store the grown set back (monitor.py lines 48-53). -/
def NumbersMonitor.tick (m : NumbersMonitor) (listings : List Listing) :
    NumbersMonitor × List Listing :=
  let r := processTick listings m.seen
  ({ m with seen := r.1 }, r.2)

/-- Application state relevant to monitor lifecycle (`AppState` in
app/main.py lines 24-34) plus a count of live tick-loop tasks system-wide.
`asyncio.create_task` adds a task; a task only ends when the monitor that owns
it cancels it in `stop`, so overwriting `app_state.monitor` orphans a still
live poller. -/
structure SysState where
  monitor : Option NumbersMonitor
  pollers : Nat
  monitor_should_stop : Bool
deriving DecidableEq, Repr

/-- `POST /monitor-numbers/start` after a successful pre-check (app/main.py
lines 359-364): a brand-new `NumbersMonitor` is constructed (fresh empty seen
set, no task) and assigned to `app_state.monitor`, then its `start` is called.
The previous monitor, if any, is not stopped: its task keeps polling. -/
def start_monitor_endpoint (s : SysState) : SysState × StartRes :=
  let r := NumbersMonitor.init.start
  ({ s with
      monitor := some r.1
      pollers := s.pollers + (if r.2 = .started then 1 else 0) },
    r.2)

/-- `POST /monitor-numbers/stop` (app/main.py lines 389-396): stop and drop the
currently referenced monitor, clear the should-stop flag. -/
def stop_monitor_endpoint (s : SysState) : SysState :=
  match s.monitor with
  | some m =>
    { s with
        monitor := none
        pollers := s.pollers - (if m.taskAlive then 1 else 0)
        monitor_should_stop := false }
  | none => { s with monitor_should_stop := false }

/-- C10: the dedup key `f"{id}|{price}|{status}"` is not injective over
(id, price, status) triples: the distinct listings (id "a|1", price 2,
state "s") and (id "a", price 1, state "2|s") render to the same key
"a|1|2|s", and in a session that fetches the first and then the second, the
second, genuinely different listing is not reported. -/
theorem C10_key_not_injective :
    listingKey ⟨some "a|1", some 2, some "s"⟩ =
      listingKey ⟨some "a", some 1, some "2|s"⟩ ∧
    (⟨some "a|1", some 2, some "s"⟩ : Listing) ≠ ⟨some "a", some 1, some "2|s"⟩ ∧
    (runSession [[⟨some "a|1", some 2, some "s"⟩],
                 [⟨some "a", some 1, some "2|s"⟩]] []).2 =
      [⟨some "a|1", some 2, some "s"⟩] := by
  refine ⟨rfl, by decide, rfl⟩

/-- Collaborator behaviour seen by one `TON.get_balance_nano` call
(app/utils/ton.py lines 181-211): whether `_ensure` raises, and whether the
account-state fetch raises or returns a state, from which a balance field may
(`some`) or may not (`none`) be extractable by the extraction cascade of
lines 186-201. -/
structure BalanceOracle where
  ensure : Option String
  state : Except String (Option Int)

/-- The body of `get_balance_nano` inside its `try` (ton.py lines 182-207):
an escaping exception is an `Except.error`; an unextractable balance is not an
exception but an `ok 0` return (lines 205-207). -/
def get_balance_nano_body (b : BalanceOracle) : Except String Int :=
  match b.ensure with
  | some e => .error e
  | none =>
    match b.state with
    | .error e => .error e
    | .ok none => .ok 0
    | .ok (some v) => .ok v

/-- `TON.get_balance_nano` (ton.py lines 181-211): the body with its
`except Exception` handler, which converts any escaped fault to `0`. -/
def get_balance_nano (b : BalanceOracle) : Int :=
  match get_balance_nano_body b with
  | .ok v => v
  | .error _ => 0

/-- Outcome of one `wallet.raw_transfer` call (ton.py line 106): the call
either returned an object — recorded as its Python truthiness together with
its `str` rendering — or raised. Per lines 110-126 the submission counts as a
success exactly when the object is truthy and its rendering is not "None". -/
inductive AttemptRes where
  | ret (res : String) (truthy : Bool)
  | exn (e : String)
deriving DecidableEq, Repr

/-- Engine outcomes: the result dicts `TON.transfer` can return, tagged by
their `error` field (ton.py lines 73, 82, 112, 120, 145, 153, 163). `sent`
covers the two `ok: True` dicts, carrying the `result` field. -/
inductive TransferResult where
  | sent (result : String)
  | insufficientBalance (amount_nano balance_nano : Int)
  | balanceCheckFailed (details : String)
  | transferFailed (result : String)
  | externalTransferFailed (details : String)
  | allTransferAttemptsFailed (details : String)
deriving DecidableEq, Repr

/-- How many primary `raw_transfer` submissions were made and whether the
fallback external submission ran. -/
structure Trace where
  primary : Nat
  fallbackRun : Bool
deriving DecidableEq, Repr

/-- Result of the `for attempt in range(3)` loop (ton.py lines 102-134):
either some attempt returned and the loop produced a result dict after `used`
submissions, or every listed attempt raised (loop fell through to its `else`),
with `last_err` holding the error of the last attempt. -/
inductive LoopOut where
  | done (r : TransferResult) (used : Nat)
  | exhausted (last_err : Option String)
deriving DecidableEq, Repr

/-- The retry loop of ton.py lines 102-134 over the listed attempt outcomes:
a returning attempt yields `sent` on success (truthy, not "None") and
`transferFailed` otherwise, ending the loop; a raising attempt records the
error and continues (the account-state refresh of lines 131-134 swallows its
own faults and has no modelled effect). -/
def runAttempts : List AttemptRes → Option String → LoopOut
  | [], last_err => .exhausted last_err
  | a :: rest, _ =>
    match a with
    | .ret res truthy =>
      if truthy = true ∧ res ≠ "None" then .done (.sent res) 1
      else .done (.transferFailed res) 1
    | .exn e =>
      match runAttempts rest (some e) with
      | .done r n => .done r (n + 1)
      | .exhausted l => .exhausted l

/-- Collaborator behaviour seen by one `TON.transfer` call: a possible
exception before the balance check (`_ensure`, `Address`, base64/BOC parsing,
ton.py lines 57-63), the balance-query behaviour, the three primary
submission outcomes, and the fallback path (`wallet.transfer` +
`send_external_message`, lines 138-143). -/
structure TransferOracle where
  prelude : Option String
  balance : BalanceOracle
  attempts : Fin 3 → AttemptRes
  fallback : Except String Unit

/-- The body of `TON.transfer` inside its outermost `try` (ton.py lines
56-159), with the run trace. An exception escaping to the outer handler is an
`Except.error`. The balance check (lines 67-88) calls `get_balance_nano`,
which is total, so its local `except` branch (`balance_check_failed`, lines
80-88) has no arm here; that this is faithful is the unreachability theorem
for C9. After the loop exhausts, the `for`-`else` fallback of lines 135-159
runs exactly once with the same destination, amount and payload. -/
def transferBody (o : TransferOracle) (amount_nano : Int) :
    Except String (TransferResult × Trace) :=
  match o.prelude with
  | some e => .error e
  | none =>
    let bal := get_balance_nano o.balance
    if bal < amount_nano then .ok (.insufficientBalance amount_nano bal, ⟨0, false⟩)
    else
      match runAttempts [o.attempts 0, o.attempts 1, o.attempts 2] none with
      | .done r n => .ok (r, ⟨n, false⟩)
      | .exhausted _ =>
        match o.fallback with
        | .ok _ => .ok (.sent "external_message_sent", ⟨3, true⟩)
        | .error e => .ok (.externalTransferFailed e, ⟨3, true⟩)

/-- `TON.transfer` with its outermost `except Exception` handler (ton.py
lines 161-169), which converts any escaped fault into the
`all_transfer_attempts_failed` result dict. -/
def transferTraced (o : TransferOracle) (amount_nano : Int) :
    TransferResult × Trace :=
  match transferBody o amount_nano with
  | .ok r => r
  | .error e => (.allTransferAttemptsFailed e, ⟨0, false⟩)

/-- The caller-visible outcome of `TON.transfer`. -/
def TON.transfer (o : TransferOracle) (amount_nano : Int) : TransferResult :=
  (transferTraced o amount_nano).1

/-- Outcome of the affordability pre-check (app/main.py lines 162-249):
pass (returning the balance), the HTTP 402 insufficient-balance-for-monitoring
rejection raised by `validate_balance_for_monitoring`, or the HTTP 500
pre-check-failed rejection produced when `validate_affordability` raises
`InsufficientBalanceError` on the cheapest affordable listing and the
`except Exception` handler of lines 239-249 wraps it. -/
inductive GateResult where
  | ok (balance_ton : ℚ)
  | insufficientForMonitoring (required : Int) (available : ℚ)
  | preCheckFailed (required : Int) (available : ℚ)
deriving DecidableEq

/-- `validate_balance_for_monitoring` (app/main.py lines 171-185): true iff it
raises, i.e. iff the balance is below the requested ceiling. -/
def validate_balance_for_monitoring (max_price_ton : Int) (balance_ton : ℚ) : Bool :=
  balance_ton < (max_price_ton : ℚ)

/-- `validate_affordability` (app/main.py lines 162-168): true iff it raises,
i.e. iff the balance is below the given price. -/
def validate_affordability (max_price : Int) (balance_ton : ℚ) : Bool :=
  balance_ton < (max_price : ℚ)

/-- The affordable sub-list of app/main.py lines 210-215: listings with a
parsed price no greater than the ceiling. -/
def affordable_items (max_price_ton : Int) (listings : List Listing) : List Listing :=
  listings.filter fun l =>
    match l.price_ton_int with
    | some p => p ≤ max_price_ton
    | none => false

/-- The price of the head of the affordable list after sorting by price
(app/main.py lines 223-224), i.e. the minimum affordable price. -/
def cheapest_affordable (max_price_ton : Int) (listings : List Listing) : Option Int :=
  ((affordable_items max_price_ton listings).filterMap (·.price_ton_int)).min?

/-- `pre_check_affordability` (app/main.py lines 188-249), with the wallet
balance (in TON, `balance_nano / 1_000_000_000`) and the fetched listings
supplied by the caller: the ceiling check runs first and short-circuits; with
no affordable listing the gate passes; otherwise the cheapest affordable price
must also be covered, a failure there surfacing as the wrapped 500. -/
def pre_check_affordability (max_price_ton : Int) (listings : List Listing)
    (balance_ton : ℚ) : GateResult :=
  if validate_balance_for_monitoring max_price_ton balance_ton then
    .insufficientForMonitoring max_price_ton balance_ton
  else
    match cheapest_affordable max_price_ton listings with
    | none => .ok balance_ton
    | some cheapest =>
      if validate_affordability cheapest balance_ton then
        .preCheckFailed cheapest balance_ton
      else .ok balance_ton

/-- Caller-visible outcome of a buy endpoint: the success body
`{status: "sent", tx: res}` or a raised `HTTPException` with its status code
and the `error` field of its detail. -/
inductive BuyOutcome where
  | sent (tx : TransferResult)
  | httpError (code : Nat) (kind : String)
deriving DecidableEq, Repr

/-- Collaborator behaviour seen by one `buy_number` call (app/main.py lines
572-716): the sales list used for bid inference, the `amount_nano` of the
prepared bid link, and the transfer collaborators. Address and payload are
opaque and threaded unchanged. -/
structure BuyOracle where
  listings : List Listing
  prepAmount : Int
  transfer : TransferOracle

/-- Bid resolution of app/main.py lines 582-594: a given bid is used as is;
otherwise the item is looked up in the current sales list and its parsed
price taken; a missing item or missing price leaves no bid. -/
def resolve_bid (o : BuyOracle) (number_id : String) (bid_ton : Option Int) :
    Option Int :=
  match bid_ton with
  | some b => some b
  | none =>
    match o.listings.find? (fun l => l.id == some number_id) with
    | some l => l.price_ton_int
    | none => none

/-- `POST /buy-number` (app/main.py lines 572-716), on the path where the
quote steps themselves neither raise nor time out: resolve the bid (absent bid
with the item missing from the sales list or carrying no parsed price is a 400),
then delegate to `TON.transfer` and map its result dict: `ok: True` to the sent
body, `insufficient_balance` to HTTP 402, `transfer_failed` to HTTP 400, and
any other `error` value to the HTTP 400 `transaction_failed` rejection
(lines 632-677). The function never consults `buy_in_progress`. -/
def buy_number (o : BuyOracle) (number_id : String) (bid_ton : Option Int) :
    BuyOutcome :=
  match resolve_bid o number_id bid_ton with
  | none => .httpError 400 "bid_required"
  | some _ =>
    match TON.transfer o.transfer o.prepAmount with
    | .sent r => .sent (.sent r)
    | .insufficientBalance _ _ => .httpError 402 "insufficient_balance"
    | .transferFailed _ => .httpError 400 "transfer_failed"
    | .balanceCheckFailed _ => .httpError 400 "transaction_failed"
    | .externalTransferFailed _ => .httpError 400 "transaction_failed"
    | .allTransferAttemptsFailed _ => .httpError 400 "transaction_failed"

/-- A direct call to the `/buy-number` route (app/main.py line 572): the route
body runs unconditionally — it neither reads nor writes
`app_state.buy_in_progress`, so the flag is returned unchanged and no
Conflict rejection can arise from it. -/
def direct_buy_call (buy_in_progress : Bool) (o : BuyOracle)
    (number_id : String) (bid_ton : Option Int) : BuyOutcome × Bool :=
  (buy_number o number_id bid_ton, buy_in_progress)

/-- The monitor pipeline's purchase step (app/main.py lines 303-311):
`async with purchase_lock()` (lines 81-91) raises HTTP 409 Conflict when
`buy_in_progress` is set — the body does not run and the flag is unchanged;
otherwise the flag is set, `buy_number` runs, and the `finally` block clears
the flag. `none` records that no purchase executed. -/
def monitor_purchase_step (buy_in_progress : Bool) (o : BuyOracle)
    (number_id : String) (bid_ton : Option Int) : Option BuyOutcome × Bool :=
  if buy_in_progress then (none, buy_in_progress)
  else (some (buy_number o number_id bid_ton), false)

/-- The tick body reports exactly the listings the declarative filter keeps. -/
theorem processTick_snd (ls : List Listing) (seen : List String) :
    (processTick ls seen).2 = specNewKeyFilter ls seen := by
  induction ls generalizing seen with
  | nil => rfl
  | cons l ls ih =>
    by_cases h : listingKey l ∈ seen
    · simp [processTick, specNewKeyFilter, h, ih]
    · simp [processTick, specNewKeyFilter, h, ih]

/-- Seen-set accumulation composes over concatenation of the processed list. -/
theorem processTick_fst_append (xs ys : List Listing) (seen : List String) :
    (processTick (xs ++ ys) seen).1 = (processTick ys (processTick xs seen).1).1 := by
  induction xs generalizing seen with
  | nil => rfl
  | cons l xs ih =>
    by_cases h : listingKey l ∈ seen
    · simp [processTick, h, ih]
    · simp [processTick, h, ih]

/-- The declarative filter splits over concatenation, threading the seen set
accumulated by the first part. -/
theorem specNewKeyFilter_append (xs ys : List Listing) (seen : List String) :
    specNewKeyFilter (xs ++ ys) seen =
      specNewKeyFilter xs seen ++ specNewKeyFilter ys (processTick xs seen).1 := by
  induction xs generalizing seen with
  | nil => simp [specNewKeyFilter, processTick]
  | cons l xs ih =>
    by_cases h : listingKey l ∈ seen
    · simp [specNewKeyFilter, processTick, h, ih]
    · simp [specNewKeyFilter, processTick, h, ih]

/-- A session over any tick decomposition reports exactly what the declarative
filter keeps on the flattened snapshot sequence, and accumulates the same seen
set. -/
theorem runSession_eq_spec (ticks : List (List Listing)) (seen : List String) :
    (runSession ticks seen).2 = specNewKeyFilter ticks.flatten seen ∧
    (runSession ticks seen).1 = (processTick ticks.flatten seen).1 := by
  induction ticks generalizing seen with
  | nil => simp [runSession, specNewKeyFilter, processTick]
  | cons t ts ih =>
    refine ⟨?_, ?_⟩
    · show (processTick t seen).2 ++ (runSession ts (processTick t seen).1).2 = _
      rw [(ih (processTick t seen).1).1, processTick_snd,
        List.flatten_cons, specNewKeyFilter_append]
    · show (runSession ts (processTick t seen).1).1 = _
      rw [(ih (processTick t seen).1).2, List.flatten_cons, processTick_fst_append]

/-- Every reported listing has a key outside the seen set it was checked
against. -/
theorem specNewKeyFilter_key_not_seen (ls : List Listing) (seen : List String) :
    ∀ l ∈ specNewKeyFilter ls seen, listingKey l ∉ seen := by
  induction ls generalizing seen with
  | nil => intro l hl; simp [specNewKeyFilter] at hl
  | cons a ls ih =>
    intro l hl
    by_cases h : listingKey a ∈ seen
    · rw [specNewKeyFilter, if_pos h] at hl
      exact ih seen l hl
    · rw [specNewKeyFilter, if_neg h] at hl
      rcases List.mem_cons.mp hl with rfl | hl
      · exact h
      · have := ih (listingKey a :: seen) l hl
        exact fun hs => this (List.mem_cons_of_mem _ hs)

/-- The keys of the reported listings are pairwise distinct. -/
theorem specNewKeyFilter_keys_nodup (ls : List Listing) (seen : List String) :
    ((specNewKeyFilter ls seen).map listingKey).Nodup := by
  induction ls generalizing seen with
  | nil => simp [specNewKeyFilter]
  | cons a ls ih =>
    by_cases h : listingKey a ∈ seen
    · rw [specNewKeyFilter, if_pos h]; exact ih seen
    · rw [specNewKeyFilter, if_neg h]
      refine List.nodup_cons.mpr ⟨?_, ih (listingKey a :: seen)⟩
      intro hmem
      rcases List.mem_map.mp hmem with ⟨l, hl, hkey⟩
      exact specNewKeyFilter_key_not_seen ls (listingKey a :: seen) l hl
        (hkey ▸ List.mem_cons_self _ _)

/-- Any fixed key accounts for at most one reported listing. -/
theorem specNewKeyFilter_count_le_one (ls : List Listing) (seen : List String)
    (k : String) :
    ((specNewKeyFilter ls seen).filter (fun l => listingKey l == k)).length ≤ 1 := by
  induction ls generalizing seen with
  | nil => simp [specNewKeyFilter]
  | cons a ls ih =>
    by_cases h : listingKey a ∈ seen
    · rw [specNewKeyFilter, if_pos h]; exact ih seen
    · rw [specNewKeyFilter, if_neg h]
      by_cases hk : listingKey a == k
      · have hnil :
            (specNewKeyFilter ls (listingKey a :: seen)).filter
              (fun l => listingKey l == k) = [] := by
          refine List.filter_eq_nil_iff.mpr ?_
          intro l hl
          have hne := specNewKeyFilter_key_not_seen ls (listingKey a :: seen) l hl
          have : listingKey l ≠ listingKey a := fun he =>
            hne (he ▸ List.mem_cons_self _ _)
          simpa [beq_iff_eq, eq_of_beq hk] using this
        simp [List.filter_cons, hk, hnil]
      · simp only [List.filter_cons, hk]
        simpa using ih (listingKey a :: seen)

/-- C5: within one monitor session the callback fires for a listing exactly
when its dedup key has not been seen before in the session. Formally: over any
sequence of fetched snapshots, the reported listings are exactly those the
declarative first-occurrence-of-key filter keeps on the flattened sequence
(so an unchanged key fires at most once, witnessed by the count bound), and a
price change on an unchanged id produces a new key and is reported again, as
in the two-tick run with prices 50 then 60 firing twice. -/
theorem C5_callback_iff_new_key :
    (∀ ticks : List (List Listing),
        (runSession ticks []).2 = specNewKeyFilter ticks.flatten []) ∧
    (∀ (ticks : List (List Listing)) (k : String),
        (((runSession ticks []).2).filter (fun l => listingKey l == k)).length ≤ 1) ∧
    (runSession [[⟨some "a", some 50, some "avail"⟩],
                 [⟨some "a", some 60, some "avail"⟩]] []).2 =
      [⟨some "a", some 50, some "avail"⟩, ⟨some "a", some 60, some "avail"⟩] := by
  refine ⟨fun ticks => (runSession_eq_spec ticks []).1, fun ticks k => ?_, by decide⟩
  rw [(runSession_eq_spec ticks []).1]
  exact specNewKeyFilter_count_le_one ticks.flatten [] k

/-- C6 counterexample: from the initial application state, calling the start
endpoint twice leaves an active tick-loop in place after the first call, yet
the second call still reports `started` — not an AlreadyRunning failure — and
the system ends up with two live pollers (the first one orphaned). -/
theorem C6_counterexample :
    (start_monitor_endpoint ⟨none, 0, false⟩).1.monitor =
      some ⟨[], true, true⟩ ∧
    (start_monitor_endpoint (start_monitor_endpoint ⟨none, 0, false⟩).1).2 =
      .started ∧
    (start_monitor_endpoint (start_monitor_endpoint ⟨none, 0, false⟩).1).2 ≠
      .alreadyRunningNoop ∧
    (start_monitor_endpoint (start_monitor_endpoint ⟨none, 0, false⟩).1).1.pollers
      = 2 := by
  decide

/-- C6 (amended): starting while an active tick-loop exists does not fail with
AlreadyRunning. Calling `start` on a monitor instance whose task is live is a
silent no-op (state unchanged, no second task for that instance, no error);
the start endpoint, however, always constructs a fresh monitor and launches a
new poller, incrementing the count of live tick-loops and leaving any previous
poller running. -/
theorem C6_single_session_amended :
    (∀ m : NumbersMonitor, m.taskAlive = true →
        m.start = (m, .alreadyRunningNoop)) ∧
    (∀ s : SysState,
        start_monitor_endpoint s =
          ({ s with monitor := some ⟨[], true, true⟩, pollers := s.pollers + 1 },
            .started)) := by
  constructor
  · intro m h
    simp [NumbersMonitor.start, h]
  · intro s
    rfl

/-- C6 witness: the amended theorem applied to a monitor whose task is live
and to a concrete system state holding one active poller. -/
theorem C6_single_session_amended_witness :
    NumbersMonitor.start ⟨["k"], true, true⟩ =
      (⟨["k"], true, true⟩, .alreadyRunningNoop) ∧
    start_monitor_endpoint ⟨some ⟨["k"], true, true⟩, 1, false⟩ =
      (⟨some ⟨[], true, true⟩, 2, false⟩, .started) :=
  ⟨C6_single_session_amended.1 ⟨["k"], true, true⟩ rfl,
    C6_single_session_amended.2 ⟨some ⟨["k"], true, true⟩, 1, false⟩⟩

/-- C7 counterexample: run a monitor from construction — start, one tick
reporting the listing (id "a", price 50, state "avail"), stop — then start it
again. The restart reports `started`, but the new session begins with the old
seen set, not an empty one, and the first tick of the new session does not
report the previously seen listing again. -/
theorem C7_counterexample :
    (((NumbersMonitor.init.start).1.tick
        [⟨some "a", some 50, some "avail"⟩]).1.stop.start).2 = .started ∧
    (((NumbersMonitor.init.start).1.tick
        [⟨some "a", some 50, some "avail"⟩]).1.stop.start).1.seen ≠ [] ∧
    ((((NumbersMonitor.init.start).1.tick
        [⟨some "a", some 50, some "avail"⟩]).1.stop.start).1.tick
        [⟨some "a", some 50, some "avail"⟩]).2 = [] := by
  decide

/-- C7 (amended): the seen set is empty only because the constructor
initialises it so; `start` (and `stop`) leave the instance's seen set exactly
as it was, so a stopped-and-restarted monitor instance retains every
previously seen key and does not re-report those listings. A session begins
empty only when a brand-new monitor is constructed, as the start endpoint
does on every call. -/
theorem C7_seen_set_amended :
    NumbersMonitor.init.seen = [] ∧
    (∀ m : NumbersMonitor, (m.start).1.seen = m.seen) ∧
    (∀ m : NumbersMonitor, m.stop.seen = m.seen) ∧
    (∀ s : SysState,
        ((start_monitor_endpoint s).1.monitor.map NumbersMonitor.seen) = some []) := by
  refine ⟨rfl, fun m => ?_, fun m => rfl, fun s => rfl⟩
  by_cases h : m.taskAlive <;> simp [NumbersMonitor.start, h]

/-- A retry loop that produced a result inside the loop produced either a
success dict or an explicit-failure dict — never any of the error dicts. -/
theorem runAttempts_done_shape (as : List AttemptRes) (le : Option String)
    (r : TransferResult) (n : Nat) (h : runAttempts as le = .done r n) :
    (∃ s, r = .sent s) ∨ (∃ s, r = .transferFailed s) := by
  induction as generalizing le n with
  | nil => simp [runAttempts] at h
  | cons a rest ih =>
    cases a with
    | ret res truthy =>
      by_cases hc : truthy = true ∧ res ≠ "None"
      · rw [runAttempts, if_pos hc] at h
        exact Or.inl ⟨res, by cases h; rfl⟩
      · rw [runAttempts, if_neg hc] at h
        exact Or.inr ⟨res, by cases h; rfl⟩
    | exn e =>
      rw [runAttempts] at h
      cases hr : runAttempts rest (some e) with
      | done r2 n2 =>
        rw [hr] at h
        injection h with h1 h2
        subst h1
        exact ih (some e) n2 hr
      | exhausted l => rw [hr] at h; cases h

/-- C4: whenever the queried balance is below the requested amount, the
transfer returns the insufficient-balance outcome carrying exactly the
requested amount and the available balance, with zero primary submissions and
no fallback submission. -/
theorem C4_insufficient_balance_no_submission (o : TransferOracle) (a : Int)
    (hpre : o.prelude = none) (hbal : get_balance_nano o.balance < a) :
    transferTraced o a =
      (.insufficientBalance a (get_balance_nano o.balance), ⟨0, false⟩) := by
  simp [transferTraced, transferBody, hpre, if_pos hbal]

/-- C4 witness: a concrete oracle with balance 3 against a requested amount
of 5: no submission runs and the outcome carries 5 and 3. -/
theorem C4_insufficient_balance_no_submission_witness :
    transferTraced
      ⟨none, ⟨none, .ok (some 3)⟩, fun _ => .exn "never_reached", .ok ()⟩ 5 =
      (.insufficientBalance 5 3, ⟨0, false⟩) :=
  C4_insufficient_balance_no_submission
    ⟨none, ⟨none, .ok (some 3)⟩, fun _ => .exn "never_reached", .ok ()⟩ 5
    rfl (by decide)

/-- C8: the engine is total over faults: for every collaborator behaviour the
caller receives a plain `TransferResult` (one constructor of the tagged union,
so exactly one populated variant); a fault escaping the body is converted by
the outermost handler into the structured error result rather than
propagating, and in particular a fault before the balance check surfaces that
way. -/
theorem C8_transfer_total_over_faults (o : TransferOracle) (a : Int) :
    (∀ e, transferBody o a = .error e →
        transferTraced o a = (.allTransferAttemptsFailed e, ⟨0, false⟩)) ∧
    (∀ r, transferBody o a = .ok r → transferTraced o a = r) ∧
    (∀ e, o.prelude = some e →
        transferTraced o a = (.allTransferAttemptsFailed e, ⟨0, false⟩)) := by
    refine ⟨fun e h => ?_, fun r h => ?_, fun e h => ?_⟩
    · simp [transferTraced, h]
    · simp [transferTraced, h]
    · simp [transferTraced, transferBody, h]

/-- C8 witness: a run whose very first collaborator call raises reaches the
caller as the structured all-transfer-attempts-failed result. -/
theorem C8_transfer_total_over_faults_witness :
    transferTraced
      ⟨some "boom", ⟨none, .ok (some 9)⟩, fun _ => .exn "x", .ok ()⟩ 5 =
      (.allTransferAttemptsFailed "boom", ⟨0, false⟩) :=
  (C8_transfer_total_over_faults
    ⟨some "boom", ⟨none, .ok (some 9)⟩, fun _ => .exn "x", .ok ()⟩ 5).2.2 "boom" rfl

/-- C9: `get_balance_nano` never raises — any fault escaping its body, and
likewise an account state carrying no extractable balance, yields 0. Hence
the balance check inside `transfer` cannot raise, the balance-check-failed
error dict is never returned, and a failed balance lookup with a positive
requested amount surfaces as the insufficient-balance outcome with available
balance 0 and no submission attempted. -/
theorem C9_balance_lookup_never_raises :
    (∀ (b : BalanceOracle) (e : String),
        get_balance_nano_body b = .error e → get_balance_nano b = 0) ∧
    (∀ b : BalanceOracle, b.state = .ok none → get_balance_nano b = 0) ∧
    (∀ (o : TransferOracle) (a : Int) (d : String),
        TON.transfer o a ≠ .balanceCheckFailed d) ∧
    (∀ (o : TransferOracle) (a : Int),
        o.prelude = none → 0 < a →
        ((∃ e, get_balance_nano_body o.balance = .error e) ∨
          o.balance.state = .ok none) →
        transferTraced o a = (.insufficientBalance a 0, ⟨0, false⟩)) := by
  have hz : ∀ b : BalanceOracle,
      ((∃ e, get_balance_nano_body b = .error e) ∨ b.state = .ok none) →
      get_balance_nano b = 0 := by
    intro b hb
    rcases hb with ⟨e, he⟩ | hs
    · simp [get_balance_nano, he]
    · cases hE : b.ensure with
      | some e => simp [get_balance_nano, get_balance_nano_body, hE]
      | none => simp [get_balance_nano, get_balance_nano_body, hE, hs]
  refine ⟨fun b e he => hz b (Or.inl ⟨e, he⟩), fun b hs => hz b (Or.inr hs),
    fun o a d => ?_, fun o a hpre ha hb => ?_⟩
  · unfold TON.transfer transferTraced transferBody
    cases hp : o.prelude with
    | some e => simp
    | none =>
      by_cases hlt : get_balance_nano o.balance < a
      · simp [if_pos hlt]
      · simp only [if_neg hlt]
        cases hr : runAttempts [o.attempts 0, o.attempts 1, o.attempts 2] none with
        | done r n =>
          rcases runAttempts_done_shape _ _ _ _ hr with ⟨s, rfl⟩ | ⟨s, rfl⟩ <;> simp
        | exhausted l =>
          cases hf : o.fallback <;> simp
  · have h0 := hz o.balance hb
    simp [transferTraced, transferBody, hpre, h0, ha]

/-- C3 counterexample: a run where all 3 primary attempts raise ("e1", "e2",
"e3") and the fallback submission then raises "fallback_boom". The claim says
this returns Error with kind "all_attempts_failed" carrying the last primary
error "e3"; the code instead returns the external-transfer-failed dict
carrying the fallback's own error (the recorded last primary error is dead),
after exactly 3 primary attempts and one fallback. -/
theorem C3_counterexample :
    TON.transfer
      ⟨none, ⟨none, .ok (some 1000)⟩, ![.exn "e1", .exn "e2", .exn "e3"],
        .error "fallback_boom"⟩ 5 =
      .externalTransferFailed "fallback_boom" ∧
    TON.transfer
      ⟨none, ⟨none, .ok (some 1000)⟩, ![.exn "e1", .exn "e2", .exn "e3"],
        .error "fallback_boom"⟩ 5 ≠
      .allTransferAttemptsFailed "e3" ∧
    (transferTraced
      ⟨none, ⟨none, .ok (some 1000)⟩, ![.exn "e1", .exn "e2", .exn "e3"],
        .error "fallback_boom"⟩ 5).2 = ⟨3, true⟩ := by
  refine ⟨rfl, by decide, rfl⟩

/-- C3 (amended): sufficient balance granted, at most 3 primary submissions
are made; the first attempt that returns decides the outcome — success yields
the sent result, explicit failure yields transfer-failed immediately with no
further attempt and no fallback; only when all 3 attempts raise does exactly
one fallback submission run, whose success yields the fallback-tagged sent
result and whose failure yields the error dict with kind
"external_transfer_failed" carrying the fallback submission's own error (not
the recorded, unused last primary error). -/
theorem C3_retry_then_fallback_amended (o : TransferOracle) (a : Int)
    (hpre : o.prelude = none) (hbal : ¬ get_balance_nano o.balance < a) :
    (transferTraced o a).2.primary ≤ 3 ∧
    (∀ res truthy, o.attempts 0 = .ret res truthy →
      transferTraced o a =
        ((if truthy = true ∧ res ≠ "None" then .sent res else .transferFailed res),
          ⟨1, false⟩)) ∧
    (∀ e0 res truthy, o.attempts 0 = .exn e0 → o.attempts 1 = .ret res truthy →
      transferTraced o a =
        ((if truthy = true ∧ res ≠ "None" then .sent res else .transferFailed res),
          ⟨2, false⟩)) ∧
    (∀ e0 e1 res truthy, o.attempts 0 = .exn e0 → o.attempts 1 = .exn e1 →
      o.attempts 2 = .ret res truthy →
      transferTraced o a =
        ((if truthy = true ∧ res ≠ "None" then .sent res else .transferFailed res),
          ⟨3, false⟩)) ∧
    (∀ e0 e1 e2, o.attempts 0 = .exn e0 → o.attempts 1 = .exn e1 →
      o.attempts 2 = .exn e2 →
      (o.fallback = .ok () →
        transferTraced o a = (.sent "external_message_sent", ⟨3, true⟩)) ∧
      (∀ f, o.fallback = .error f →
        transferTraced o a = (.externalTransferFailed f, ⟨3, true⟩))) := by
  have hT : transferTraced o a =
      match runAttempts [o.attempts 0, o.attempts 1, o.attempts 2] none with
      | .done r n => (r, ⟨n, false⟩)
      | .exhausted _ =>
        match o.fallback with
        | .ok _ => (.sent "external_message_sent", ⟨3, true⟩)
        | .error e => (.externalTransferFailed e, ⟨3, true⟩) := by
    cases hr : runAttempts [o.attempts 0, o.attempts 1, o.attempts 2] none with
    | done r n => simp [transferTraced, transferBody, hpre, if_neg hbal, hr]
    | exhausted l =>
      cases hf : o.fallback <;>
        simp [transferTraced, transferBody, hpre, if_neg hbal, hr, hf]
  refine ⟨?_, ?_, ?_, ?_, ?_⟩
  · rw [hT]
    cases h0 : o.attempts 0 with
    | ret res truthy =>
      by_cases hc : truthy = true ∧ res ≠ "None" <;> simp [runAttempts, h0, hc]
    | exn e0 =>
      cases h1 : o.attempts 1 with
      | ret res truthy =>
        by_cases hc : truthy = true ∧ res ≠ "None" <;> simp [runAttempts, h0, h1, hc]
      | exn e1 =>
        cases h2 : o.attempts 2 with
        | ret res truthy =>
          by_cases hc : truthy = true ∧ res ≠ "None" <;>
            simp [runAttempts, h0, h1, h2, hc]
        | exn e2 =>
          cases hf : o.fallback <;> simp [runAttempts, h0, h1, h2, hf]
  · intro res truthy h0
    rw [hT]
    by_cases hc : truthy = true ∧ res ≠ "None" <;> simp [runAttempts, h0, hc]
  · intro e0 res truthy h0 h1
    rw [hT]
    by_cases hc : truthy = true ∧ res ≠ "None" <;> simp [runAttempts, h0, h1, hc]
  · intro e0 e1 res truthy h0 h1 h2
    rw [hT]
    by_cases hc : truthy = true ∧ res ≠ "None" <;> simp [runAttempts, h0, h1, h2, hc]
  · intro e0 e1 e2 h0 h1 h2
    refine ⟨fun hf => ?_, fun f hf => ?_⟩ <;>
      (rw [hT]; simp [runAttempts, h0, h1, h2, hf])

/-- C3 witness: the amended theorem applied to a run whose first submission
returns a confirmation "OK": one primary attempt, sent, no fallback. -/
theorem C3_retry_then_fallback_amended_witness :
    transferTraced
      ⟨none, ⟨none, .ok (some 1000)⟩, ![.ret "OK" true, .exn "x", .exn "y"],
        .ok ()⟩ 5 = (.sent "OK", ⟨1, false⟩) := by
  have h := (C3_retry_then_fallback_amended
      ⟨none, ⟨none, .ok (some 1000)⟩, ![.ret "OK" true, .exn "x", .exn "y"],
        .ok ()⟩ 5 rfl (by decide)).2.1 "OK" true (by decide)
  exact h.trans (by decide)

/-- C2 listings: prices 80 and 150, as in the claim's scenario. -/
def c2listings : List Listing :=
  [⟨some "a", some 80, some "avail"⟩, ⟨some "b", some 150, some "avail"⟩]

/-- C2 counterexample: with max price 100, listings priced 80 and 150 and
balance 90 the gate does not pass — the ceiling check, which the same claim
says runs first, rejects 90 < 100 before any listing-specific comparison; and
with balance 70 the rejection carries required 100, not the claimed
required 80 with a mere 10-short shortfall against the cheapest listing. -/
theorem C2_counterexample :
    pre_check_affordability 100 c2listings 90 =
      .insufficientForMonitoring 100 90 ∧
    pre_check_affordability 100 c2listings 90 ≠ .ok 90 ∧
    pre_check_affordability 100 c2listings 70 ≠ .preCheckFailed 80 70 := by
  refine ⟨by decide, by decide, by decide⟩

/-- C2 (amended): the ceiling check runs first and short-circuits: whenever
the balance is below the max price the gate fails with the
insufficient-balance-for-monitoring rejection carrying required = max price
and the available balance, before any listing-specific check; in particular
the claim's scenario (max 100, prices 80/150) fails with required 100 and
available 90, and with balance 70 fails with required 100 and available 70. -/
theorem C2_ceiling_check_first_amended :
    (∀ (mp : Int) (ls : List Listing) (bal : ℚ), bal < (mp : ℚ) →
        pre_check_affordability mp ls bal = .insufficientForMonitoring mp bal) ∧
    pre_check_affordability 100 c2listings 90 =
      .insufficientForMonitoring 100 90 ∧
    pre_check_affordability 100 c2listings 70 =
      .insufficientForMonitoring 100 70 := by
  refine ⟨fun mp ls bal h => ?_, by decide, by decide⟩
  simp [pre_check_affordability, validate_balance_for_monitoring, h]

/-- C2 witness: the amended short-circuit applied at the claim's concrete
scenario with balance 90. -/
theorem C2_ceiling_check_first_amended_witness :
    pre_check_affordability 100 c2listings 90 =
      .insufficientForMonitoring 100 90 :=
  C2_ceiling_check_first_amended.1 100 c2listings 90 (by norm_num)

/-- C1 oracle: collaborators for a direct buy whose transfer succeeds on the
first primary submission. -/
def c1okOracle : BuyOracle :=
  { listings := []
    prepAmount := 5
    transfer :=
      { prelude := none
        balance := { ensure := none, state := .ok (some 1000) }
        attempts := ![.ret "tx_hash" true, .exn "x", .exn "y"]
        fallback := .ok () } }

/-- C1 counterexample: with the buy-in-progress flag set, a direct call to the
buy endpoint is not rejected with Conflict (HTTP 409): it runs to completion,
performs one primary submission, returns the sent outcome and leaves the flag
untouched — so a second purchase can execute while one is in flight. -/
theorem C1_counterexample :
    direct_buy_call true c1okOracle "n1" (some 5) =
      (.sent (.sent "tx_hash"), true) ∧
    (transferTraced c1okOracle.transfer 5).2.primary = 1 := by
  refine ⟨by decide, by decide⟩

/-- C1 (amended): the purchase lock guards only the monitor pipeline's
internal purchase path: there, a call finding the flag set is rejected
immediately (HTTP 409 from purchase_lock) without executing any purchase and
without changing state, and a call finding it clear runs exactly one purchase
and releases the flag. The buy endpoints themselves never consult the flag: a
direct call returns the purchase outcome with the flag unchanged, and no
outcome of the endpoint ever carries status code 409. -/
theorem C1_single_flight_amended :
    (∀ (o : BuyOracle) (nid : String) (bid : Option Int),
        monitor_purchase_step true o nid bid = (none, true)) ∧
    (∀ (o : BuyOracle) (nid : String) (bid : Option Int),
        monitor_purchase_step false o nid bid =
          (some (buy_number o nid bid), false)) ∧
    (∀ (f : Bool) (o : BuyOracle) (nid : String) (bid : Option Int),
        direct_buy_call f o nid bid = (buy_number o nid bid, f)) ∧
    (∀ (o : BuyOracle) (nid : String) (bid : Option Int) (code : Nat) (kind : String),
        buy_number o nid bid = .httpError code kind → code ≠ 409) := by
  refine ⟨fun o nid bid => rfl, fun o nid bid => rfl, fun f o nid bid => rfl,
    fun o nid bid code kind h => ?_⟩
  unfold buy_number at h
  cases hb : resolve_bid o nid bid with
  | none =>
    simp [hb] at h
    rcases h with ⟨rfl, -⟩
    decide
  | some b =>
    simp [hb] at h
    cases ht : TON.transfer o.transfer o.prepAmount <;> simp [ht] at h <;>
      (rcases h with ⟨rfl, -⟩; decide)

/-- C1 oracle for the witness: a transfer that fails the balance check. -/
def c1insufOracle : BuyOracle :=
  { listings := []
    prepAmount := 5
    transfer :=
      { prelude := none
        balance := { ensure := none, state := .ok (some 0) }
        attempts := ![.exn "a", .exn "b", .exn "c"]
        fallback := .ok () } }

/-- C1 witness: the amended theorem applied at concrete inputs — a guarded
monitor-path attempt under a set flag executes nothing, and a concrete
endpoint rejection (402, insufficient balance) is indeed not a 409. -/
theorem C1_single_flight_amended_witness :
    monitor_purchase_step true c1insufOracle "n" (some 5) = (none, true) ∧
    (402 : Nat) ≠ 409 :=
  ⟨C1_single_flight_amended.1 c1insufOracle "n" (some 5),
    C1_single_flight_amended.2.2.2 c1insufOracle "n" (some 5) 402
      "insufficient_balance" (by decide)⟩

/-- C9 witness: the theorem applied to a run whose connection step raises —
the lookup yields 0 rather than raising, and a transfer of 5 over the failed
lookup surfaces as insufficient balance with available 0 and no submission. -/
theorem C9_balance_lookup_never_raises_witness :
    get_balance_nano ⟨some "conn_fail", .ok (some 7)⟩ = 0 ∧
    transferTraced
      ⟨none, ⟨some "conn_fail", .ok (some 7)⟩, ![.exn "a", .exn "b", .exn "c"],
        .ok ()⟩ 5 =
      (.insufficientBalance 5 0, ⟨0, false⟩) :=
  ⟨C9_balance_lookup_never_raises.1 ⟨some "conn_fail", .ok (some 7)⟩ "conn_fail" rfl,
    C9_balance_lookup_never_raises.2.2.2
      ⟨none, ⟨some "conn_fail", .ok (some 7)⟩, ![.exn "a", .exn "b", .exn "c"],
        .ok ()⟩ 5 rfl (by decide) (Or.inl ⟨"conn_fail", rfl⟩)⟩
